import Mathlib

/-!
Verification of the BeaverVision lip-synchronization service.

The visible code (`src/beavervision/main.py`) is a thin HTTP front end; the
media-synthesis pipeline it wraps (Ingestor, Synthesizer, Motion Generator,
Compositor, Encoder, Orchestrator) is described by the specification but its
implementation is not part of the visible sources.  Definitions below are
therefore of two kinds:

* `health_check` is a direct shallow embedding of the `GET /health` handler
  in `src/beavervision/main.py`.
* The pipeline components are modelled from the specification (each such
  definition carries a doc comment starting `Modelled from the spec:`).
-/

namespace BeaverVision

/-- A decoded video frame: a pixel grid of width `w`, height `h`, with a
pixel lookup function (row index, column index → intensity). -/
structure Frame where
  w : Nat
  h : Nat
  px : Nat → Nat → Nat

/-- The default (empty) frame, used for out-of-range list lookups. -/
def dfltFrame : Frame := ⟨0, 0, fun _ _ => 0⟩

/-- Generated mouth-region content for one frame: same representation as a
frame (an image patch addressed in the original frame's coordinates). -/
abbrev Motion := Frame

/-- A face bounding box: rows `y0 ≤ i < y1`, columns `x0 ≤ j < x1`. -/
structure BBox where
  x0 : Nat
  y0 : Nat
  x1 : Nat
  y1 : Nat
deriving DecidableEq

/-- Whether pixel `(i, j)` (row `i`, column `j`) lies inside box `b`. -/
def inBox (b : BBox) (i j : Nat) : Bool :=
  decide (b.y0 ≤ i) && decide (i < b.y1) && decide (b.x0 ≤ j) && decide (j < b.x1)

/-- One entry of a `FrameSequence`: the decoded image, the (possibly
interpolated) face bounding box, and whether the box came from an actual
detection on this frame (`detected = false` means inherited/interpolated). -/
structure FrameRec where
  image : Frame
  bbox : Option BBox
  detected : Bool

/-- Default record for out-of-range lookups. -/
def dfltRec : FrameRec := ⟨dfltFrame, none, false⟩

/-- A phoneme-alignment segment of the synthesized speech. -/
structure PhonSeg where
  phoneme : String
  startMs : Nat
  endMs : Nat
deriving DecidableEq

/-- Synthesized waveform plus phoneme/timing alignment. -/
structure AudioTrack where
  sampleRate : Nat
  samples : List Int
  alignment : List PhonSeg
deriving DecidableEq

/-- Ordered decoded frames with per-frame face boxes and a shared fps. -/
structure FrameSequence where
  frames : List FrameRec
  fps : Nat

/-- Final encoded video: frame count and fps of the video stream plus the
muxed (possibly resampled) audio. -/
structure ResultArtifact where
  numFrames : Nat
  fps : Nat
  audio : AudioTrack
deriving DecidableEq

/-- Duration (in seconds) of the encoded artifact's video stream. -/
def artifactDuration (a : ResultArtifact) : ℚ :=
  (a.numFrames : ℚ) / (a.fps : ℚ)

/-- The error taxonomy of the pipeline (spec §7). -/
inductive Err
  | unsupportedMedia
  | noFaceDetected
  | emptyText
  | textTooLong
  | inferenceOOM
  | capacity
  | timeout
  | encoding
  | internal
deriving DecidableEq

/-- Orchestrator job states (spec §4.6). -/
inductive Status
  | queued
  | decoding
  | synthesizing
  | generating
  | compositing
  | encoding
  | done
  | failed
deriving DecidableEq

/-- Configuration surface: size/duration/text-length limits, the minimum
fraction (in percent) of frames that must show a face, the Motion Generator
batch window size, the feather width and the reduced-confidence alpha used
by the Compositor. -/
structure Config where
  maxDurationMs : Nat
  maxWidth : Nat
  maxHeight : Nat
  maxChars : Nat
  minFacePct : Nat
  batchW : Nat
  featherW : Nat
  missingAlpha : Nat

/-- An uploaded video after container probing: codec recognizability,
duration, resolution, fps and the decoded frames. -/
structure VideoInput where
  codecKnown : Bool
  durationMs : Nat
  width : Nat
  height : Nat
  fps : Nat
  frames : List Frame

/-- Pluggable capabilities and environment oracles consumed by the pipeline
(spec §9: `FaceDetector`, `TextToSpeech`, `MotionModel` are capability
interfaces; GPU allocation failure, encoder failure, queue saturation and
timeout are environment conditions). -/
structure Env where
  detect : Frame → Option BBox
  tts : String → AudioTrack
  motionModel : Frame → AudioTrack → Nat → Motion
  blend : Motion → Motion → Motion
  oom : Nat → Bool
  encoderOk : Bool
  queueFull : Bool
  timedOut : Bool
  rng : Nat

/-! ## `GET /health` (embedded from `src/beavervision/main.py`) -/

/-- The CUDA runtime facts the handler queries:
`torch.cuda.is_available()` and `torch.cuda.get_device_name(0)`. -/
structure CudaEnv where
  is_available : Bool
  device_name : Nat → String

/-- Opaque pipeline/orchestrator state of the running process.  The handler
receives it only to let us state that it never reads it. -/
structure PipelineState where
  activeJobs : Nat
  queueDepth : Nat

/-- The JSON object returned by the `/health` endpoint. -/
structure HealthResponse where
  status : String
  cuda_available : Bool
  cuda_device : String
deriving DecidableEq

/-- Shallow embedding of `health_check` in `src/beavervision/main.py`
(lines 224-231): returns `{"status": "healthy", "cuda_available":
torch.cuda.is_available(), "cuda_device": torch.cuda.get_device_name(0) if
torch.cuda.is_available() else "CPU"}`.  The pipeline state is a parameter
only so that independence from it can be stated. -/
def health_check (env : CudaEnv) (_st : PipelineState) : HealthResponse :=
  { status := "healthy"
    cuda_available := env.is_available
    cuda_device := if env.is_available then env.device_name 0 else "CPU" }

/-! ## Media Ingestor (spec §4.1; implementation not in the visible sources) -/

/-- Forward fill of per-frame detection results: a frame whose detection
failed inherits the most recent earlier box. -/
def forwardFill : Option BBox → List (Option BBox) → List (Option BBox)
  | _, [] => []
  | last, none :: rest => last :: forwardFill last rest
  | _, some b :: rest => some b :: forwardFill (some b) rest

/-- Modelled from the spec: the Ingestor's box inheritance/interpolation —
"if detection fails on a frame, the box is inherited/interpolated from
neighbors".  A missing box takes the nearest earlier detection, and frames
before the first detection take the first later one (forward fill, then
backward fill). -/
def fillBoxes (bs : List (Option BBox)) : List (Option BBox) :=
  ((forwardFill none (forwardFill none bs).reverse)).reverse

/-- Build the `FrameRec` list for a decoded frame list: run the face
detector per frame, fill missing boxes from neighbors, and record whether
each frame's box came from an actual detection. -/
def mkRecs (detect : Frame → Option BBox) (fs : List Frame) : List FrameRec :=
  let raw := fs.map detect
  let filled := fillBoxes raw
  (List.range fs.length).map (fun i =>
    { image := fs.getD i dfltFrame
      bbox := filled.getD i none
      detected := (raw.getD i none).isSome })

/-- Modelled from the spec: `ingest(video_bytes) -> FrameSequence`
(the Media Ingestor is not in the visible sources).  Fails with
`UnsupportedMediaError` if the codec is unrecognized, the duration exceeds
the configured maximum, or the resolution exceeds the configured maximum;
fails with `NoFaceDetectedError` if a face is found in fewer than the
configured minimum fraction of frames; otherwise produces the frame
sequence with per-frame (possibly inherited) boxes. -/
def ingest (cfg : Config) (env : Env) (v : VideoInput) : Except Err FrameSequence :=
  if v.codecKnown = false then .error .unsupportedMedia
  else if cfg.maxDurationMs < v.durationMs then .error .unsupportedMedia
  else if cfg.maxWidth < v.width ∨ cfg.maxHeight < v.height then .error .unsupportedMedia
  else if (v.frames.map env.detect).countP Option.isSome * 100
            < cfg.minFacePct * v.frames.length then .error .noFaceDetected
  else .ok { frames := mkRecs env.detect v.frames, fps := v.fps }

/-! ## Speech Synthesizer (spec §4.2; implementation not in the visible sources) -/

/-- A text is blank when every one of its characters is whitespace (this
includes the empty text). -/
def isBlank (s : String) : Bool := s.data.all Char.isWhitespace

/-- Modelled from the spec: `synthesize(text) -> AudioTrack` (the Speech
Synthesizer is not in the visible sources).  Fails with `EmptyTextError` on
blank/whitespace-only input and with `TextTooLongError` above the configured
character limit; otherwise runs the deterministic TTS model.  The `rng`
parameter is the entropy that would be available to a randomized
implementation; the spec requires the result not to depend on it. -/
def synthesize (cfg : Config) (tts : String → AudioTrack) (_rng : Nat)
    (text : String) : Except Err AudioTrack :=
  if isBlank text then .error .emptyText
  else if cfg.maxChars < text.length then .error .textTooLong
  else .ok (tts text)

/-! ## Motion Generator (spec §4.3; implementation not in the visible sources) -/

/-- Stride between consecutive batch windows of size `w` overlapping by one
frame. -/
def stride (w : Nat) : Nat := max 1 (w - 1)

/-- Number of batch windows needed to cover `n` frames with windows of size
`w` overlapping by one frame. -/
def numBatches (n w : Nat) : Nat :=
  if n = 0 then 0 else (n - 1) / stride w + 1

/-- Per-frame model outputs of one batch window: window `b` covers the frame
indices `[b * stride w, b * stride w + w)` clipped to the sequence, each
conditioned on that batch's audio window. -/
def batchOut (env : Env) (frames : List FrameRec) (audio : AudioTrack)
    (w b : Nat) : List Motion :=
  (((List.range w).map (fun k => b * stride w + k)).filter
      (fun i => decide (i < frames.length))).map
    (fun i => env.motionModel (frames.getD i dfltRec).image audio b)

/-- Run batches `b0, b0+1, …, b0+rem-1`, accumulating each batch's output.
If a GPU allocation fails on some batch (`oomf`), the error propagates and
the outputs of the already-completed batches are discarded. -/
def runBatches (oomf : Nat → Bool) (out : Nat → List Motion) :
    Nat → Nat → Except Err (List (List Motion))
  | _, 0 => .ok []
  | b, rem + 1 =>
    if oomf b then .error .inferenceOOM
    else
      match runBatches oomf out (b + 1) rem with
      | .error e => .error e
      | .ok rest => .ok (out b :: rest)

/-- Reassemble per-batch outputs into one motion frame per input frame: a
frame shared by two overlapping windows (the first frame of every window but
the first) is the blend of the two windows' outputs for it. -/
def assemble (blendf : Motion → Motion → Motion) (n w : Nat)
    (batches : List (List Motion)) : List Motion :=
  (List.range n).map (fun i =>
    let s := stride w
    let b := i / s
    let cur := (batches.getD b []).getD (i - b * s) dfltFrame
    if 0 < i ∧ i % s = 0 then
      blendf ((batches.getD (b - 1) []).getD s dfltFrame) cur
    else cur)

/-- Modelled from the spec: `generate(frames, audio) -> MotionFrames` (the
Motion Generator is not in the visible sources).  Processes the frames in
fixed-size windows of `w` frames with one-frame overlap, blending the
overlapped frames; fails with `InferenceOOMError` if a GPU allocation fails
mid-batch, discarding the results of already-completed batches.  The exact
blending function is left open by the spec and is the abstract `env.blend`. -/
def generate (env : Env) (w : Nat) (frames : List FrameRec)
    (audio : AudioTrack) : Except Err (List Motion) :=
  match runBatches env.oom (batchOut env frames audio w) 0
      (numBatches frames.length w) with
  | .error e => .error e
  | .ok bs => .ok (assemble env.blend frames.length w bs)

/-! ## Frame Compositor (spec §4.4; implementation not in the visible sources) -/

/-- Feathered blend weight (percent) of the generated content at pixel
`(i, j)` of box `b`: ramps up with the distance to the nearest box edge over
a feather band of width `fw`. -/
def featherAlpha (fw : Nat) (b : BBox) (i j : Nat) : Nat :=
  let d := min (min (i - b.y0) (b.y1 - 1 - i)) (min (j - b.x0) (b.x1 - 1 - j))
  min 100 ((d + 1) * 100 / max 1 fw)

/-- Alpha blend (percent weights) of a generated pixel over an original one. -/
def blendPx (alpha orig new : Nat) : Nat :=
  (alpha * new + (100 - alpha) * orig) / 100

/-- Modelled from the spec: per-frame compositing (the Frame Compositor is
not in the visible sources).  Pastes the generated mouth-region content into
the original frame at the tracked bounding box, feather-blending at the box
edge; if the box was interpolated rather than detected, the blend confidence
is reduced to the configured alpha.  Pixels outside the bounding box are
the original frame's pixels; with no box at all the frame is unchanged. -/
def compositeFrame (cfg : Config) (fr : FrameRec) (m : Motion) : Frame :=
  match fr.bbox with
  | none => fr.image
  | some b =>
    let conf := if fr.detected then 100 else cfg.missingAlpha
    { fr.image with
      px := fun i j =>
        if inBox b i j then
          blendPx (featherAlpha cfg.featherW b i j * conf / 100)
            (fr.image.px i j) (m.px i j)
        else fr.image.px i j }

/-- Modelled from the spec: `composite(frames, motion) -> CompositedFrames`
(the Frame Compositor is not in the visible sources): per-frame compositing
of the motion content into the original frames. -/
def composite (cfg : Config) (frames : List FrameRec) (motion : List Motion) :
    List Frame :=
  List.zipWith (compositeFrame cfg) frames motion

/-! ## Video Encoder (spec §4.5; implementation not in the visible sources) -/

/-- Resample an audio track to exactly `target` samples (nearest-sample
time stretch), keeping the sample rate and alignment. -/
def resampleAudio (a : AudioTrack) (target : Nat) : AudioTrack :=
  { a with samples :=
      (List.range target).map (fun i => a.samples.getD (i * a.samples.length / target) 0) }

/-- Modelled from the spec: `encode(frames, audio) -> ResultArtifact` (the
Video Encoder is not in the visible sources).  Fails with `EncodingError` on
codec/container failure; otherwise muxes the frames at the original fps with
the audio, resampling the audio to match the video duration when the lengths
mismatch (the video stream is the fixed reference and is never stretched or
truncated to the audio). -/
def encode (encOk : Bool) (fps : Nat) (frames : List Frame)
    (audio : AudioTrack) : Except Err ResultArtifact :=
  if encOk = false then .error .encoding
  else
    let target := frames.length * audio.sampleRate / fps
    let a := if audio.samples.length = target then audio else resampleAudio audio target
    .ok { numFrames := frames.length, fps := fps, audio := a }

/-! ## Pipeline Orchestrator (spec §4.6; implementation not in the visible sources) -/

/-- Everything observable about a finished job: final state, error detail,
temporary artifacts remaining after cleanup, how many GPU slot acquisitions
the job performed, how many it still holds, and the result artifact. -/
structure JobOutcome where
  status : Status
  error : Option Err
  tempFiles : Nat
  gpuAcquired : Nat
  gpuHeld : Nat
  result : Option ResultArtifact
deriving DecidableEq

/-- Outcome of a failed job: the originating error kind is preserved, all
temporary artifacts are deleted and any GPU slot is released.  `gacq`
records whether the job had acquired a GPU slot before failing. -/
def failedOutcome (e : Err) (gacq : Nat) : JobOutcome :=
  { status := .failed, error := some e, tempFiles := 0
    gpuAcquired := gacq, gpuHeld := 0, result := none }

/-- Modelled from the spec: the Pipeline Orchestrator (not in the visible
sources).  Rejects with a capacity error when the admission queue is beyond
its depth limit, fails with `TimeoutError` when the job's wall-clock budget
is exhausted, then sequences ingest and synthesis (no GPU slot involved),
acquires the single GPU slot only around the Motion Generator stage,
composites, encodes, and on every failure deletes the job's temporary
artifacts, releases the slot and preserves the originating error kind. -/
def runJob (cfg : Config) (env : Env) (v : VideoInput) (text : String) :
    JobOutcome :=
  if env.queueFull then failedOutcome .capacity 0
  else if env.timedOut then failedOutcome .timeout 0
  else
    match ingest cfg env v with
    | .error e => failedOutcome e 0
    | .ok fs =>
      match synthesize cfg env.tts env.rng text with
      | .error e => failedOutcome e 0
      | .ok audio =>
        match generate env cfg.batchW fs.frames audio with
        | .error e => failedOutcome e 1
        | .ok motion =>
          match encode env.encoderOk fs.fps (composite cfg fs.frames motion) audio with
          | .error e => failedOutcome e 1
          | .ok art =>
            { status := .done, error := none, tempFiles := 0
              gpuAcquired := 1, gpuHeld := 0, result := some art }

/-! ## `POST /api/v1/lipsync` (spec §6; the router is not in the visible
sources — `src/beavervision/main.py` only mounts it) -/

/-- Body of an HTTP response: the synthesized video bytes or a structured
error. -/
inductive RespBody
  | video (a : ResultArtifact)
  | errorBody (kind : Err) (detail : String)

/-- An HTTP response: status code and body. -/
structure Response where
  code : Nat
  body : RespBody

/-- Modelled from the spec: the HTTP status for each error kind — `400` for
validation errors, `503` for GPU OOM and capacity exhaustion, `504` for
timeout, `500` for encoding or unclassified failures. -/
def httpStatus : Err → Nat
  | .unsupportedMedia => 400
  | .noFaceDetected => 400
  | .emptyText => 400
  | .textTooLong => 400
  | .inferenceOOM => 503
  | .capacity => 503
  | .timeout => 504
  | .encoding => 500
  | .internal => 500

/-- Modelled from the spec: the `POST /api/v1/lipsync` handler (the router
is not in the visible sources).  Runs the job; on success returns the video
bytes with status `200`, otherwise a structured error body with the status
reflecting the error kind (unclassified failures map to `500`). -/
def lipsyncEndpoint (cfg : Config) (env : Env) (v : VideoInput)
    (text : String) : Response :=
  let o := runJob cfg env v text
  match o.result with
  | some art => { code := 200, body := .video art }
  | none =>
    let e := o.error.getD .internal
    { code := httpStatus e, body := .errorBody e "job failed" }

/-! ## Concrete sample inputs (used by the witnesses) -/

/-- A concrete 2×2 frame. -/
def sampleFrame : Frame := ⟨2, 2, fun i j => i * 10 + j⟩

/-- A concrete audio track: 90 Hz, five samples, one alignment segment. -/
def sampleAudio : AudioTrack := ⟨90, [1, 2, 3, 4, 5], [⟨"h", 0, 100⟩]⟩

/-- A concrete configuration. -/
def sampleCfg : Config :=
  { maxDurationMs := 10000, maxWidth := 1920, maxHeight := 1080, maxChars := 10
    minFacePct := 50, batchW := 2, featherW := 2, missingAlpha := 40 }

/-- A concrete, fully healthy environment with deterministic stub models. -/
def sampleEnv : Env :=
  { detect := fun _ => some ⟨0, 0, 2, 2⟩
    tts := fun t => ⟨90, [1, 2, 3], [⟨t, 0, 100⟩]⟩
    motionModel := fun _ _ _ => dfltFrame
    blend := fun _ m => m
    oom := fun _ => false
    encoderOk := true
    queueFull := false
    timedOut := false
    rng := 0 }

/-- A concrete three-frame video input. -/
def sampleVideo : VideoInput :=
  { codecKnown := true, durationMs := 100, width := 2, height := 2, fps := 30
    frames := [sampleFrame, sampleFrame, sampleFrame] }

/-- A concrete frame-record list (one detected box, one interpolated gap). -/
def sampleRecs : List FrameRec :=
  [⟨sampleFrame, some ⟨0, 0, 2, 2⟩, true⟩,
   ⟨sampleFrame, none, false⟩,
   ⟨sampleFrame, some ⟨1, 1, 2, 2⟩, true⟩]

/-- The sample environment with a GPU allocation failure on batch 1. -/
def oomEnv : Env := { sampleEnv with oom := fun b => decide (b = 1) }

/-- The sample environment with a saturated admission queue. -/
def busyEnv : Env := { sampleEnv with queueFull := true }

/-- A CUDA runtime with a GPU present. -/
def sampleCuda : CudaEnv := ⟨true, fun _ => "NVIDIA A100"⟩

/-- A CUDA runtime with no GPU. -/
def cpuCuda : CudaEnv := ⟨false, fun _ => "unused"⟩

/-- Two distinct pipeline states, to witness independence. -/
def samplePipe : PipelineState := ⟨1, 2⟩

/-- A second, different pipeline state. -/
def samplePipe2 : PipelineState := ⟨7, 9⟩

/-! ## Claim theorems -/

/-- C9: `GET /health` reports process health and GPU availability/name — a
status field, whether CUDA is available, and the CUDA device name — and its
response is independent of the pipeline state: it neither reads nor blocks
on it (the handler is a total function of the CUDA facts alone). -/
theorem health_reports_gpu_and_ignores_pipeline (env : CudaEnv)
    (st st' : PipelineState) :
    health_check env st = health_check env st' ∧
    (health_check env st).status = "healthy" ∧
    (health_check env st).cuda_available = env.is_available ∧
    (env.is_available = true →
      (health_check env st).cuda_device = env.device_name 0) := by
  refine ⟨rfl, rfl, rfl, fun h => ?_⟩
  simp [health_check, h]

/-- Witness for C9 at a concrete CUDA runtime and two pipeline states. -/
theorem health_reports_gpu_and_ignores_pipeline_witness :
    health_check sampleCuda samplePipe = health_check sampleCuda samplePipe2 ∧
    (health_check sampleCuda samplePipe).status = "healthy" ∧
    (health_check sampleCuda samplePipe).cuda_available = true ∧
    (health_check sampleCuda samplePipe).cuda_device = "NVIDIA A100" :=
  ⟨(health_reports_gpu_and_ignores_pipeline sampleCuda samplePipe samplePipe2).1,
   (health_reports_gpu_and_ignores_pipeline sampleCuda samplePipe samplePipe2).2.1,
   (health_reports_gpu_and_ignores_pipeline sampleCuda samplePipe samplePipe2).2.2.1,
   (health_reports_gpu_and_ignores_pipeline sampleCuda samplePipe samplePipe2).2.2.2 rfl⟩

/-- C10: `GET /health` returns the constant status string `"healthy"`
regardless of any actual process or pipeline condition, and when CUDA is
unavailable it reports the literal string `"CPU"` as the device rather than
omitting the field or failing. -/
theorem health_constant_status_and_cpu_fallback (env : CudaEnv)
    (st : PipelineState) :
    (health_check env st).status = "healthy" ∧
    (env.is_available = false → (health_check env st).cuda_device = "CPU") := by
  refine ⟨rfl, fun h => ?_⟩
  simp [health_check, h]

/-- Witness for C10 at a concrete GPU-less CUDA runtime. -/
theorem health_constant_status_and_cpu_fallback_witness :
    (health_check cpuCuda samplePipe).status = "healthy" ∧
    (health_check cpuCuda samplePipe).cuda_device = "CPU" :=
  ⟨(health_constant_status_and_cpu_fallback cpuCuda samplePipe).1,
   (health_constant_status_and_cpu_fallback cpuCuda samplePipe).2 rfl⟩

/-- C6: synthesis is deterministic — two runs of `synthesize` on identical
text with the identical voice configuration (the same TTS capability and
limits) yield the identical AudioTrack, waveform and phoneme alignment
included, whatever entropy (`r`, `r'`) is available to the implementation. -/
theorem synthesize_deterministic (cfg : Config) (tts : String → AudioTrack)
    (r r' : Nat) (text : String) :
    synthesize cfg tts r text = synthesize cfg tts r' text := rfl

/-- Helper: a job whose synthesis stage fails never reaches the Motion
Generator, hence never acquires a GPU slot. -/
theorem gpuAcquired_zero_of_synth_error (cfg : Config) (env : Env)
    (v : VideoInput) (text : String) (e : Err)
    (h : synthesize cfg env.tts env.rng text = .error e) :
    (runJob cfg env v text).gpuAcquired = 0 := by
  unfold runJob
  split
  · rfl
  · split
    · rfl
    · cases hi : ingest cfg env v with
      | error e' => rfl
      | ok fs => rw [h]; rfl

/-- C3: a blank or whitespace-only text makes `synthesize` fail with
`EmptyTextError` (and the orchestrator consumes no GPU slot for such a job);
a text above the configured character limit makes it fail with
`TextTooLongError`. -/
theorem synthesize_rejects_blank_and_long (cfg : Config) (env : Env)
    (r : Nat) (text : String) :
    (isBlank text = true →
      synthesize cfg env.tts r text = .error .emptyText ∧
      ∀ v, (runJob cfg env v text).gpuAcquired = 0) ∧
    (isBlank text = false → cfg.maxChars < text.length →
      synthesize cfg env.tts r text = .error .textTooLong) := by
  constructor
  · intro h
    have hs : ∀ r' : Nat, synthesize cfg env.tts r' text = .error .emptyText := by
      intro r'; simp [synthesize, h]
    exact ⟨hs r, fun v => gpuAcquired_zero_of_synth_error cfg env v text _ (hs env.rng)⟩
  · intro h1 h2
    simp [synthesize, h1, h2]

/-- Witness for C3: the empty text is rejected with `EmptyTextError` and no
GPU slot is consumed; an over-long text is rejected with `TextTooLongError`. -/
theorem synthesize_rejects_blank_and_long_witness :
    synthesize sampleCfg sampleEnv.tts 7 "" = .error .emptyText ∧
    (runJob sampleCfg sampleEnv sampleVideo "").gpuAcquired = 0 ∧
    synthesize sampleCfg sampleEnv.tts 7 "a very long sample sentence"
      = .error .textTooLong :=
  ⟨((synthesize_rejects_blank_and_long sampleCfg sampleEnv 7 "").1 rfl).1,
   ((synthesize_rejects_blank_and_long sampleCfg sampleEnv 7 "").1 rfl).2 sampleVideo,
   (synthesize_rejects_blank_and_long sampleCfg sampleEnv 7
     "a very long sample sentence").2 (by decide) (by decide)⟩

/-- Sanity fact shared by the development: the empty text is blank. -/
theorem isBlank_empty : isBlank "" = true := rfl

/-- Helper: if some batch in range suffers a GPU allocation failure, the
batch loop returns `InferenceOOMError` (whatever outputs earlier batches
produced). -/
theorem runBatches_oom (oomf : Nat → Bool) (out : Nat → List Motion) :
    ∀ (rem b0 : Nat), (∃ k, k < rem ∧ oomf (b0 + k) = true) →
      runBatches oomf out b0 rem = .error .inferenceOOM := by
  intro rem
  induction rem with
  | zero =>
    rintro b0 ⟨k, hk, -⟩
    exact absurd hk (Nat.not_lt_zero k)
  | succ r ih =>
    rintro b0 ⟨k, hk, ho⟩
    by_cases hb : oomf b0 = true
    · simp [runBatches, hb]
    · have hk0 : k ≠ 0 := by
        intro h0
        rw [h0, Nat.add_zero] at ho
        exact hb ho
      have hrec : runBatches oomf out (b0 + 1) r = .error .inferenceOOM := by
        refine ih (b0 + 1) ⟨k - 1, by omega, ?_⟩
        have : b0 + 1 + (k - 1) = b0 + k := by omega
        rw [this]; exact ho
      simp [runBatches, hb, hrec]

/-- C1: for every accepted job (one whose Motion Generator stage completes),
the motion frame list is aligned one-to-one with the input frame sequence and
the composited frame list has that same length: the number of output frames
equals the number of input frames. -/
theorem pipeline_length_invariant (cfg : Config) (env : Env) (w : Nat)
    (frames : List FrameRec) (audio : AudioTrack) (motion : List Motion)
    (h : generate env w frames audio = .ok motion) :
    motion.length = frames.length ∧
    (composite cfg frames motion).length = frames.length := by
  have hm : motion.length = frames.length := by
    unfold generate at h
    cases hr : runBatches env.oom (batchOut env frames audio w) 0
        (numBatches frames.length w) with
    | error e => rw [hr] at h; simp at h
    | ok bs =>
      rw [hr] at h
      simp only [Except.ok.injEq] at h
      rw [← h, assemble, List.length_map, List.length_range]
  exact ⟨hm, by simp [composite, List.length_zipWith, hm]⟩

/-- Witness for C1 on a concrete three-frame job that the stub environment
accepts. -/
theorem pipeline_length_invariant_witness :
    generate sampleEnv 2 sampleRecs sampleAudio
      = .ok [dfltFrame, dfltFrame, dfltFrame] ∧
    ([dfltFrame, dfltFrame, dfltFrame] : List Motion).length = sampleRecs.length ∧
    (composite sampleCfg sampleRecs [dfltFrame, dfltFrame, dfltFrame]).length
      = sampleRecs.length :=
  ⟨rfl,
   pipeline_length_invariant sampleCfg sampleEnv 2 sampleRecs sampleAudio
     [dfltFrame, dfltFrame, dfltFrame] rfl⟩

/-- C4: if a GPU memory allocation fails on any batch of the Motion
Generator run, `generate` fails with `InferenceOOMError` and returns no
partial result — the outputs of the already-completed batches are discarded
and no `.ok` artifact is ever produced (atomicity on error). -/
theorem generate_oom_atomic (env : Env) (w : Nat) (frames : List FrameRec)
    (audio : AudioTrack) (b : Nat)
    (h1 : env.oom b = true) (h2 : b < numBatches frames.length w) :
    generate env w frames audio = .error .inferenceOOM ∧
    ∀ ms, generate env w frames audio ≠ .ok ms := by
  have hr : runBatches env.oom (batchOut env frames audio w) 0
      (numBatches frames.length w) = .error .inferenceOOM :=
    runBatches_oom _ _ _ 0 ⟨b, h2, by rw [Nat.zero_add]; exact h1⟩
  have hg : generate env w frames audio = .error .inferenceOOM := by
    unfold generate; rw [hr]
  exact ⟨hg, fun ms hc => by rw [hg] at hc; simp at hc⟩

/-- Witness for C4: with an allocation failure on batch 1 of three, the
concrete run returns `InferenceOOMError`. -/
theorem generate_oom_atomic_witness :
    oomEnv.oom 1 = true ∧ 1 < numBatches 3 2 ∧
    generate oomEnv 2 sampleRecs sampleAudio = .error .inferenceOOM :=
  ⟨rfl, by decide,
   (generate_oom_atomic oomEnv 2 sampleRecs sampleAudio 1 rfl (by decide)).1⟩

/-- Whether pixel `(i, j)` lies outside the (optional) face bounding box:
with no box at all, every pixel counts as outside. -/
def outsideBox (ob : Option BBox) (i j : Nat) : Bool :=
  match ob with
  | none => true
  | some b => !(inBox b i j)

/-- Helper: indexing a `zipWith` inside its length. -/
theorem getD_zipWith {α β γ : Type} (f : α → β → γ) :
    ∀ (xs : List α) (ys : List β) (k : Nat) (dx : α) (dy : β) (dz : γ),
      k < xs.length → k < ys.length →
      (List.zipWith f xs ys).getD k dz = f (xs.getD k dx) (ys.getD k dy) := by
  intro xs
  induction xs with
  | nil => intro ys k dx dy dz hx _; exact absurd hx (Nat.not_lt_zero k)
  | cons x xs ih =>
    intro ys k dx dy dz hx hy
    cases ys with
    | nil => exact absurd hy (Nat.not_lt_zero k)
    | cons y ys =>
      cases k with
      | zero => rfl
      | succ k =>
        simp only [List.zipWith, List.getD_cons_succ]
        exact ih ys k dx dy dz (by simpa using hx) (by simpa using hy)

/-- Helper: a single composited frame agrees with the original frame on
every pixel outside the face bounding box. -/
theorem compositeFrame_outside (cfg : Config) (fr : FrameRec) (m : Motion)
    (i j : Nat) (h : outsideBox fr.bbox i j = true) :
    (compositeFrame cfg fr m).px i j = fr.image.px i j := by
  unfold compositeFrame
  cases hb : fr.bbox with
  | none => rfl
  | some b =>
    have h' : inBox b i j = false := by
      rw [hb] at h
      simpa [outsideBox] using h
    simp [h']

/-- C5: the Compositor never modifies pixels outside the face bounding box —
for every frame `k` processed by `composite`, every pixel `(i, j)` outside
that frame's box is the corresponding pixel of the original frame. -/
theorem composite_preserves_outside (cfg : Config) (frames : List FrameRec)
    (motion : List Motion) (k i j : Nat)
    (hk : k < frames.length) (hm : k < motion.length)
    (h : outsideBox ((frames.getD k dfltRec).bbox) i j = true) :
    ((composite cfg frames motion).getD k dfltFrame).px i j
      = (frames.getD k dfltRec).image.px i j := by
  rw [composite,
    getD_zipWith (compositeFrame cfg) frames motion k dfltRec dfltFrame dfltFrame hk hm]
  exact compositeFrame_outside cfg _ _ i j h

/-- A one-frame sequence whose face box is the lower-right quadrant, leaving
pixel `(0, 0)` outside the box. -/
def cornerRecs : List FrameRec := [⟨sampleFrame, some ⟨1, 1, 2, 2⟩, true⟩]

/-- Witness for C5 at a concrete frame, patch and pixel outside the box. -/
theorem composite_preserves_outside_witness :
    0 < cornerRecs.length ∧ 0 < ([sampleFrame] : List Motion).length ∧
    outsideBox ((cornerRecs.getD 0 dfltRec).bbox) 0 0 = true ∧
    ((composite sampleCfg cornerRecs [sampleFrame]).getD 0 dfltFrame).px 0 0
      = (cornerRecs.getD 0 dfltRec).image.px 0 0 :=
  ⟨by decide, by decide, rfl,
   composite_preserves_outside sampleCfg cornerRecs [sampleFrame] 0 0 0
     (by decide) (by decide) rfl⟩

/-- C2: a successful `encode` produces an artifact whose video stream has
exactly the input frame count and fps — hence exactly the input video's
duration, within any ±1-frame tolerance — and whose audio has been brought
to the sample count matching the video duration; on a length mismatch it is
the audio that is resampled, never the video stream. -/
theorem encode_duration_matches_video (encOk : Bool) (fps : Nat)
    (frames : List Frame) (audio : AudioTrack) (art : ResultArtifact)
    (h : encode encOk fps frames audio = .ok art) :
    art.numFrames = frames.length ∧ art.fps = fps ∧
    artifactDuration art = (frames.length : ℚ) / (fps : ℚ) ∧
    art.audio.samples.length = frames.length * audio.sampleRate / fps ∧
    (audio.samples.length ≠ frames.length * audio.sampleRate / fps →
      art.audio = resampleAudio audio (frames.length * audio.sampleRate / fps)) := by
  unfold encode at h
  by_cases he : encOk = false
  · rw [if_pos he] at h; simp at h
  · rw [if_neg he] at h
    simp only [Except.ok.injEq] at h
    subst h
    refine ⟨rfl, rfl, rfl, ?_, ?_⟩
    · by_cases hl : audio.samples.length = frames.length * audio.sampleRate / fps
      · simp [hl]
      · simp [hl, resampleAudio]
    · intro hl
      simp [hl]

/-- The artifact the concrete encode run produces: one frame at 30 fps, the
five-sample audio resampled down to the three samples spanning 1/30 s. -/
def sampleArtifact : ResultArtifact := ⟨1, 30, ⟨90, [1, 2, 4], [⟨"h", 0, 100⟩]⟩⟩

/-- Witness for C2 on a concrete mismatched encode (five audio samples
against a one-frame, 1/30 s video). -/
theorem encode_duration_matches_video_witness :
    encode true 30 [sampleFrame] sampleAudio = .ok sampleArtifact ∧
    sampleArtifact.numFrames = ([sampleFrame] : List Frame).length ∧
    sampleArtifact.fps = 30 ∧
    artifactDuration sampleArtifact
      = ((([sampleFrame] : List Frame).length : ℚ) / ((30 : Nat) : ℚ)) ∧
    sampleArtifact.audio.samples.length
      = ([sampleFrame] : List Frame).length * sampleAudio.sampleRate / 30 :=
  ⟨rfl,
   (encode_duration_matches_video true 30 [sampleFrame] sampleAudio sampleArtifact rfl).1,
   (encode_duration_matches_video true 30 [sampleFrame] sampleAudio sampleArtifact rfl).2.1,
   (encode_duration_matches_video true 30 [sampleFrame] sampleAudio sampleArtifact rfl).2.2.1,
   (encode_duration_matches_video true 30 [sampleFrame] sampleAudio sampleArtifact rfl).2.2.2.1⟩

/-- Helper: every job run is either a failure outcome carrying its
originating error kind, or the `done` outcome carrying the artifact. -/
theorem runJob_cases (cfg : Config) (env : Env) (v : VideoInput)
    (text : String) :
    (∃ e g, runJob cfg env v text = failedOutcome e g) ∨
    (∃ art, runJob cfg env v text =
      { status := .done, error := none, tempFiles := 0
        gpuAcquired := 1, gpuHeld := 0, result := some art }) := by
  unfold runJob
  split
  · exact .inl ⟨.capacity, 0, rfl⟩
  · split
    · exact .inl ⟨.timeout, 0, rfl⟩
    · cases ingest cfg env v with
      | error e => exact .inl ⟨e, 0, rfl⟩
      | ok fs =>
        dsimp only
        cases synthesize cfg env.tts env.rng text with
        | error e => exact .inl ⟨e, 0, rfl⟩
        | ok audio =>
          dsimp only
          cases generate env cfg.batchW fs.frames audio with
          | error e => exact .inl ⟨e, 1, rfl⟩
          | ok motion =>
            dsimp only
            cases encode env.encoderOk fs.fps (composite cfg fs.frames motion) audio with
            | error e => exact .inl ⟨e, 1, rfl⟩
            | ok art => exact .inr ⟨art, rfl⟩

/-- C7: every job that fails, at whatever stage, ends with zero temporary
artifacts remaining, holds no GPU slot, carries no partial result, and the
whole outcome is the failure outcome for some error kind `e` — the
originating error, preserved in the job's error detail. -/
theorem failed_job_cleanup (cfg : Config) (env : Env) (v : VideoInput)
    (text : String) (h : (runJob cfg env v text).status = .failed) :
    (runJob cfg env v text).tempFiles = 0 ∧
    (runJob cfg env v text).gpuHeld = 0 ∧
    (runJob cfg env v text).result = none ∧
    ∃ e, (runJob cfg env v text).error = some e ∧
      runJob cfg env v text = failedOutcome e (runJob cfg env v text).gpuAcquired := by
  rcases runJob_cases cfg env v text with ⟨e, g, hf⟩ | ⟨art, hd⟩
  · rw [hf]
    exact ⟨rfl, rfl, rfl, e, rfl, rfl⟩
  · rw [hd] at h
    exact absurd h (by simp [failedOutcome])

/-- Witness for C7 on a concrete job rejected at admission (saturated
queue): it fails with the capacity error and leaves nothing behind. -/
theorem failed_job_cleanup_witness :
    (runJob sampleCfg busyEnv sampleVideo "hi").status = .failed ∧
    (runJob sampleCfg busyEnv sampleVideo "hi").tempFiles = 0 ∧
    (runJob sampleCfg busyEnv sampleVideo "hi").gpuHeld = 0 ∧
    (runJob sampleCfg busyEnv sampleVideo "hi").result = none ∧
    (runJob sampleCfg busyEnv sampleVideo "hi").error = some .capacity :=
  ⟨rfl,
   (failed_job_cleanup sampleCfg busyEnv sampleVideo "hi" rfl).1,
   (failed_job_cleanup sampleCfg busyEnv sampleVideo "hi" rfl).2.1,
   (failed_job_cleanup sampleCfg busyEnv sampleVideo "hi" rfl).2.2.1,
   rfl⟩

/-- C8: `POST /api/v1/lipsync` returns the synthesized video bytes with
status 200 on success, and otherwise a structured error whose HTTP status
reflects the error kind: 400 for the validation errors
(`UnsupportedMediaError`, `EmptyTextError`, `TextTooLongError`,
`NoFaceDetectedError`), 503 for `InferenceOOMError` and capacity
exhaustion, 504 for `TimeoutError`, and 500 for `EncodingError` or
unclassified failures. -/
theorem lipsync_status_mapping (cfg : Config) (env : Env) (v : VideoInput)
    (text : String) :
    (∀ art, (runJob cfg env v text).result = some art →
      lipsyncEndpoint cfg env v text = { code := 200, body := .video art }) ∧
    (∀ e, (runJob cfg env v text).result = none →
      (runJob cfg env v text).error = some e →
      (lipsyncEndpoint cfg env v text).code = httpStatus e) ∧
    httpStatus .unsupportedMedia = 400 ∧ httpStatus .emptyText = 400 ∧
    httpStatus .textTooLong = 400 ∧ httpStatus .noFaceDetected = 400 ∧
    httpStatus .inferenceOOM = 503 ∧ httpStatus .capacity = 503 ∧
    httpStatus .timeout = 504 ∧ httpStatus .encoding = 500 ∧
    httpStatus .internal = 500 := by
  refine ⟨fun art h => ?_, fun e h1 h2 => ?_,
    rfl, rfl, rfl, rfl, rfl, rfl, rfl, rfl, rfl⟩
  · simp [lipsyncEndpoint, h]
  · simp [lipsyncEndpoint, h1, h2]

/-- Witness for C8 on a concrete blank-text job: the endpoint surfaces the
`EmptyTextError` with HTTP status 400. -/
theorem lipsync_status_mapping_witness :
    (runJob sampleCfg sampleEnv sampleVideo "").result = none ∧
    (runJob sampleCfg sampleEnv sampleVideo "").error = some Err.emptyText ∧
    (lipsyncEndpoint sampleCfg sampleEnv sampleVideo "").code
      = httpStatus Err.emptyText :=
  ⟨rfl, rfl,
   (lipsync_status_mapping sampleCfg sampleEnv sampleVideo "").2.1
     Err.emptyText rfl rfl⟩

end BeaverVision
